import Mathlib

/-!
Verification of the device-aware tensor copy dispatch layer from
`caffe2/operators/utility_ops_gpu.cc`.

The source file provides the CUDA specialization of `CopyOnDeviceLikeOp`
and the CUDA operator registration table.  Supporting components
(execution contexts, the device pointer registry, `CopyItems`,
`ResizeLike`/`raw_mutable_data`) live outside the provided source; those
are modelled from the spec, as marked on each definition.
-/

namespace Caffe2

/-- A physical accelerator device index. -/
abbrev DeviceIndex := Nat

/-- Modelled from the spec: a memory/compute domain instance — host memory
or one specific accelerator device (`context_gpu.h` is not in the provided
source). -/
inductive Domain where
  | host
  | device (idx : DeviceIndex)
deriving DecidableEq, Repr

/-- Whether a domain is a device domain. -/
def Domain.isDevice : Domain → Bool
  | .host => false
  | .device _ => true

/-- The context *type* named by a template parameter in the source:
`CPUContext` (host) or `CUDAContext` (cuda).  A kind names a domain family;
a concrete `Domain` additionally fixes the device index. -/
inductive DomainKind where
  | host
  | cuda
deriving DecidableEq, Repr

/-- Modelled from the spec: `Meta` is a type descriptor with an item size
in bytes and a copy-semantics flag — byte-copyable (memcpy-equivalent) or
element-copy-required (`typeid`/`TypeMeta` is not in the provided source). -/
structure Meta where
  itemsize : Nat
  byteCopyable : Bool
deriving DecidableEq, Repr

/-- Modelled from the spec: a `Tensor` is a shape (ordered list of
non-negative extents), a `Meta`, and a data buffer, here a pointer into the
machine heap; a tensor with element count 0 may have a null (`none`)
buffer (`tensor.h` is not in the provided source). -/
structure Tensor where
  dims : List Nat
  meta : Meta
  dataPtr : Option Nat
deriving DecidableEq, Repr

/-- Element count: product of the shape, 0 if any dimension is 0. -/
def Tensor.size (t : Tensor) : Nat := t.dims.prod

/-- Modelled from the spec: one allocation known to the process — the
domain that owns it and its byte contents. -/
structure Alloc where
  domain : Domain
  bytes : List Nat
deriving DecidableEq, Repr

/-- Modelled from the spec: process-wide state — a fresh-pointer counter,
the allocation map (which doubles as the device pointer registry: a device
allocation's entry records its owning device index), and the ambient
"current device" of the calling thread. -/
structure Machine where
  nextPtr : Nat
  allocs : List (Nat × Alloc)
  currentDevice : DeviceIndex
deriving DecidableEq, Repr

/-- Error kinds of the copy core, from the spec's §7. -/
inductive CopyError where
  | UnknownDevicePointer
  | UnsupportedCrossDomainCopy
  | AllocationFailure
deriving DecidableEq, Repr

/-- Association-list lookup for the allocation map. -/
def lookupAssoc : List (Nat × Alloc) → Nat → Option Alloc
  | [], _ => none
  | e :: t, p => if e.1 = p then some e.2 else lookupAssoc t p

/-- Association-list pointwise update of an allocation's bytes, keeping its
owning domain. -/
def writeAssoc : List (Nat × Alloc) → Nat → List Nat → List (Nat × Alloc)
  | [], _, _ => []
  | e :: t, p, bs =>
      if e.1 = p then (e.1, ⟨e.2.domain, bs⟩) :: writeAssoc t p bs
      else e :: writeAssoc t p bs

/-- Look up the allocation behind a pointer. -/
def Machine.lookup (m : Machine) (p : Nat) : Option Alloc :=
  lookupAssoc m.allocs p

/-- Read the byte contents behind an optional pointer (a null pointer or a
pointer with no allocation reads as empty; the tensor invariant keeps this
case out of any run with a positive element count). -/
def Machine.readBytes (m : Machine) (p? : Option Nat) : List Nat :=
  match p? with
  | none => []
  | some p => ((m.lookup p).map (·.bytes)).getD []

/-- Overwrite the byte contents of an allocation, preserving its owning
domain. -/
def Machine.write (m : Machine) (p : Nat) (bytes : List Nat) : Machine :=
  ⟨m.nextPtr, writeAssoc m.allocs p bytes, m.currentDevice⟩

/-- Modelled from the spec: allocate a fresh zero-initialized buffer of the
given capacity in the given domain; the registry entry is created by the
allocation itself. -/
def Machine.allocate (m : Machine) (d : Domain) (capacity : Nat) :
    Machine × Nat :=
  (⟨m.nextPtr + 1, (m.nextPtr, ⟨d, List.replicate capacity 0⟩) :: m.allocs,
    m.currentDevice⟩,
   m.nextPtr)

/-- Modelled from the spec: `GetGPUIDForPointer` resolves a pointer through
the device pointer registry to the device index that owns it; a pointer
never registered by a device allocation is an error, never a default
(`context_gpu.h` is not in the provided source). -/
def getGPUIDForPointer (m : Machine) (p : Nat) :
    Except CopyError DeviceIndex :=
  match m.lookup p with
  | some a =>
      match a.domain with
      | .device i => .ok i
      | .host => .error .UnknownDevicePointer
  | none => .error .UnknownDevicePointer

/-- The concrete domain a context of the given kind binds to when
constructed without an explicit device index: the host, or the calling
thread's current device. -/
def DomainKind.toDomain (m : Machine) : DomainKind → Domain
  | .host => .host
  | .cuda => .device m.currentDevice

/-- Modelled from the spec: `CopyItems(meta, n, src, dst)` moves `n`
elements described by `meta` from `src` to `dst`.  Byte-copyable metas get
a flat copy of `n * itemsize` bytes; element-copy-required metas invoke the
element routine `n` times in index order (content-identity at the byte
level in this model), which is well-defined only when both ends are host
resident — any other domain pair is unsupported and fails.  A zero count
touches no buffer (`context.h`/`context_gpu.h` are not in the provided
source). -/
def copyItems (m : Machine) (srcKind dstKind : DomainKind) (meta : Meta)
    (n : Nat) (srcPtr dstPtr : Option Nat) : Except CopyError Machine :=
  if n = 0 then .ok m
  else if meta.byteCopyable = true ∨
      (srcKind = DomainKind.host ∧ dstKind = DomainKind.host) then
    match dstPtr with
    | none => .error .AllocationFailure
    | some p =>
        .ok (m.write p
          ((m.readBytes srcPtr).take (n * meta.itemsize) ++
           (m.readBytes (some p)).drop (n * meta.itemsize)))
  else .error .UnsupportedCrossDomainCopy

/-- Modelled from the spec: `ResizeLike` followed by `raw_mutable_data` on
the freshly constructed output blob — size the output to the given shape
and materialize its buffer in the given domain; an element count of 0
yields a null buffer and no allocation. -/
def materializeOutput (m : Machine) (d : Domain) (dims : List Nat)
    (meta : Meta) : Machine × Tensor :=
  if dims.prod = 0 then (m, ⟨dims, meta, none⟩)
  else
    let r := m.allocate d (dims.prod * meta.itemsize)
    (r.1, ⟨dims, meta, some r.2⟩)

/-- Modelled from the spec: `CopyOp<DispatchContext, DstContext,
SrcContext>::RunOnDevice` — resize the output to the input's shape, then
`CopyItems` from the input buffer into the output's newly sized mutable
buffer; the output materializes in the destination kind's ambient domain
(`utility_ops.h` is not in the provided source). -/
def runCopyOp (dispatchKind dstKind srcKind : DomainKind) (m : Machine)
    (input : Tensor) : Except CopyError (Machine × Tensor) :=
  let r := materializeOutput m (dstKind.toDomain m) input.dims input.meta
  match copyItems r.1 srcKind dstKind input.meta input.size input.dataPtr
      r.2.dataPtr with
  | .ok m2 => .ok (m2, r.2)
  | .error e => .error e

/-- `CopyOnDeviceLikeOp<CUDAContext, CUDAContext,
CUDAContext>::RunOnDevice`, from `utility_ops_gpu.cc`: resolve Input 1's
raw data pointer to a GPU id, construct a `CUDAContext` on that id, resize
the output like Input 0, and `CopyItems<CUDAContext, CUDAContext>` with
Input 0's meta, size and buffer into the output's mutable buffer. -/
def copyOnDeviceLikeRun (m : Machine) (inputA inputB : Tensor) :
    Except CopyError (Machine × Tensor) :=
  match inputB.dataPtr with
  | none => .error .UnknownDevicePointer
  | some bp =>
      match getGPUIDForPointer m bp with
      | .error e => .error e
      | .ok gpu =>
          let r := materializeOutput m (.device gpu) inputA.dims inputA.meta
          match copyItems r.1 .cuda .cuda inputA.meta inputA.size
              inputA.dataPtr r.2.dataPtr with
          | .ok m2 => .ok (m2, r.2)
          | .error e => .error e

/-- The `Run() -> bool` entry point of `CopyOnDeviceLikeOp`: true on
success; every local failure is reported to the scheduler as `false`
(failure propagation modelled from the spec's §6/§7; the `Operator` base
class is not in the provided source). -/
def copyOnDeviceLikeRunBool (m : Machine) (inputA inputB : Tensor) : Bool :=
  match copyOnDeviceLikeRun m inputA inputB with
  | .ok _ => true
  | .error _ => false

/-- The `Run() -> bool` entry point of a `CopyOp` instantiation. -/
def copyOpRunBool (dispatchKind dstKind srcKind : DomainKind) (m : Machine)
    (input : Tensor) : Bool :=
  match runCopyOp dispatchKind dstKind srcKind m input with
  | .ok _ => true
  | .error _ => false

/-- What a registration binds a name to: a `CopyOp` instantiation (listed
as dispatch, destination, source context kinds), the `CopyOnDeviceLikeOp`
instantiation, or one of the out-of-scope operators also registered in the
file. -/
inductive OpImpl where
  | copyOp (dispatch dst src : DomainKind)
  | copyOnDeviceLikeOp (dispatch dst src : DomainKind)
  | otherOp (description : String)
deriving DecidableEq, Repr

/-- The CUDA registration table of `utility_ops_gpu.cc`, one entry per
`REGISTER_CUDA_OPERATOR` line, in source order. -/
def cudaRegistry : List (String × OpImpl) := [
  ("Print", OpImpl.otherOp ("PrintOp")),
  ("Flatten", OpImpl.otherOp ("FlattenOp")),
  ("FlattenToVec", OpImpl.otherOp ("FlattenToVecOp")),
  ("Squeeze", OpImpl.otherOp ("SqueezeOp")),
  ("ExpandDims", OpImpl.otherOp ("ExpandDimsOp")),
  ("Alias", OpImpl.otherOp ("AliasOp")),
  ("ResizeLike", OpImpl.otherOp ("ResizeLikeOp")),
  ("Reshape", OpImpl.otherOp ("ReshapeOp")),
  ("Sum", OpImpl.otherOp ("SumOp")),
  ("SumElements", OpImpl.otherOp ("SumElementsOp")),
  ("SumElementsGradient", OpImpl.otherOp ("SumElementsGradientOp")),
  ("WeightedSum", OpImpl.otherOp ("WeightedSumOp")),
  ("Shape", OpImpl.otherOp ("ShapeOp")),
  ("EnsureCPUOutput", OpImpl.copyOp DomainKind.cuda DomainKind.host DomainKind.cuda),
  ("CopyFromCPUInput", OpImpl.copyOp DomainKind.cuda DomainKind.cuda DomainKind.host),
  ("CopyGPUToCPU", OpImpl.copyOp DomainKind.cuda DomainKind.host DomainKind.cuda),
  ("CopyCPUToGPU", OpImpl.copyOp DomainKind.cuda DomainKind.cuda DomainKind.host),
  ("Copy", OpImpl.copyOp DomainKind.cuda DomainKind.cuda DomainKind.cuda),
  ("CopyOnDeviceLike", OpImpl.copyOnDeviceLikeOp DomainKind.cuda DomainKind.cuda DomainKind.cuda),
  ("UnsafeCoalesce", OpImpl.otherOp ("UnsafeCoalesceOp"))]

/-- Name lookup in a registration table. -/
def lookupName : List (String × OpImpl) → String → Option OpImpl
  | [], _ => none
  | e :: t, n => if e.1 = n then some e.2 else lookupName t n

/-- Lookup in the CUDA device-domain registration table. -/
def cudaLookup (n : String) : Option OpImpl := lookupName cudaRegistry n

/-- Run the operator a registration entry is bound to on a machine and up
to two input tensors (the second is ignored by `CopyOp`); the out-of-scope
operators are not modelled. -/
def OpImpl.runOn :
    OpImpl → Machine → Tensor → Tensor →
      Option (Except CopyError (Machine × Tensor))
  | .copyOp dk dstk srck, m, a, _ => some (runCopyOp dk dstk srck m a)
  | .copyOnDeviceLikeOp _ _ _, m, a, b => some (copyOnDeviceLikeRun m a b)
  | .otherOp _, _, _, _ => none

/-- Run a registered operator by name. -/
def runRegistered (n : String) (m : Machine) (a b : Tensor) :
    Option (Except CopyError (Machine × Tensor)) :=
  (cudaLookup n).bind (fun i => i.runOn m a b)

/-- The logical byte contents of a tensor: the `size * itemsize` bytes of
its buffer. -/
def Tensor.content (m : Machine) (t : Tensor) : List Nat :=
  (m.readBytes t.dataPtr).take (t.size * t.meta.itemsize)

/-- The externally observable value of a run result: the error, or the
output tensor's shape, meta, logical contents, and the domain its backing
allocation is registered to. -/
def observe (r : Except CopyError (Machine × Tensor)) :
    Except CopyError (List Nat × Meta × List Nat × Option Domain) :=
  match r with
  | .error e => .error e
  | .ok (m, t) =>
      .ok (t.dims, t.meta, t.content m, (t.dataPtr.bind m.lookup).map (·.domain))

/-- Step 1 of the claimed algorithm: resolve Input B's buffer pointer
through the device pointer registry to a device index. -/
def stepResolve (m : Machine) (inputB : Tensor) :
    Except CopyError DeviceIndex :=
  match inputB.dataPtr with
  | none => .error .UnknownDevicePointer
  | some bp => getGPUIDForPointer m bp

/-- Step 2 of the claimed algorithm: construct an execution context bound
to the resolved device index. -/
def stepBindContext (gpu : DeviceIndex) : Domain := Domain.device gpu

/-- Step 3 of the claimed algorithm: resize the output to Input A's shape,
materializing its buffer through the bound context. -/
def stepResize (m : Machine) (ctx : Domain) (inputA : Tensor) :
    Machine × Tensor :=
  materializeOutput m ctx inputA.dims inputA.meta

/-- Step 4 of the claimed algorithm: the bound context's `CopyItems` with
Input A's meta, element count and buffer into the output's newly sized
mutable buffer typed by Input A's meta. -/
def stepCopy (m1 : Machine) (inputA output : Tensor) :
    Except CopyError Machine :=
  copyItems m1 DomainKind.cuda DomainKind.cuda inputA.meta inputA.size
    inputA.dataPtr output.dataPtr

/-- The full claimed algorithm: steps 1-4 in order, each failure
propagated. -/
def copyOnDeviceLikeSteps (m : Machine) (inputA inputB : Tensor) :
    Except CopyError (Machine × Tensor) :=
  match stepResolve m inputB with
  | .error e => .error e
  | .ok gpu =>
      let r := stepResize m (stepBindContext gpu) inputA
      match stepCopy r.1 inputA r.2 with
      | .error e => .error e
      | .ok m2 => .ok (m2, r.2)

/-! Heap lemmas. -/

theorem lookupAssoc_writeAssoc_self (l : List (Nat × Alloc)) (p : Nat)
    (bs : List Nat) :
    lookupAssoc (writeAssoc l p bs) p =
      (lookupAssoc l p).map (fun a => ⟨a.domain, bs⟩) := by
  induction l with
  | nil => rfl
  | cons e t ih =>
      by_cases h : e.1 = p
      · simp [writeAssoc, lookupAssoc, h]
      · simp [writeAssoc, lookupAssoc, h, ih]

theorem lookupAssoc_writeAssoc_ne (l : List (Nat × Alloc)) (p q : Nat)
    (bs : List Nat) (h : q ≠ p) :
    lookupAssoc (writeAssoc l p bs) q = lookupAssoc l q := by
  have hpq : p ≠ q := fun hh => h hh.symm
  induction l with
  | nil => rfl
  | cons e t ih =>
      by_cases he : e.1 = p
      · have hne : e.1 ≠ q := by rw [he]; exact hpq
        simp [writeAssoc, lookupAssoc, he, hne, hpq, ih]
      · by_cases heq : e.1 = q
        · simp [writeAssoc, lookupAssoc, he, heq, h, ih]
        · simp [writeAssoc, lookupAssoc, he, heq, ih]

theorem Machine.lookup_write_self (m : Machine) (p : Nat) (bs : List Nat) :
    (m.write p bs).lookup p = (m.lookup p).map (fun a => ⟨a.domain, bs⟩) :=
  lookupAssoc_writeAssoc_self m.allocs p bs

theorem Machine.lookup_write_ne (m : Machine) (p q : Nat) (bs : List Nat)
    (h : q ≠ p) :
    (m.write p bs).lookup q = m.lookup q :=
  lookupAssoc_writeAssoc_ne m.allocs p q bs h

theorem Machine.lookup_allocate_self (m : Machine) (d : Domain) (c : Nat) :
    ((m.allocate d c).1).lookup m.nextPtr = some ⟨d, List.replicate c 0⟩ := by
  simp [Machine.allocate, Machine.lookup, lookupAssoc]

theorem Machine.lookup_allocate_ne (m : Machine) (d : Domain) (c : Nat)
    (q : Nat) (h : q ≠ m.nextPtr) :
    ((m.allocate d c).1).lookup q = m.lookup q := by
  have h' : m.nextPtr ≠ q := fun hq => h hq.symm
  simp [Machine.allocate, Machine.lookup, lookupAssoc, h']

theorem Machine.readBytes_allocate (m : Machine) (d : Domain) (c : Nat)
    (p? : Option Nat) (hp : ∀ p, p? = some p → p < m.nextPtr) :
    ((m.allocate d c).1).readBytes p? = m.readBytes p? := by
  cases p? with
  | none => rfl
  | some p =>
      have hne : p ≠ m.nextPtr := Nat.ne_of_lt (hp p rfl)
      simp [Machine.readBytes, Machine.lookup_allocate_ne m d c p hne]

theorem Machine.readBytes_allocate_self (m : Machine) (d : Domain) (c : Nat) :
    ((m.allocate d c).1).readBytes (some m.nextPtr) = List.replicate c 0 := by
  simp [Machine.readBytes, Machine.lookup_allocate_self]

theorem Machine.allocate_snd (m : Machine) (d : Domain) (c : Nat) :
    (m.allocate d c).2 = m.nextPtr := rfl

theorem drop_replicate_self (n x : Nat) :
    List.drop n (List.replicate n x) = [] := by
  induction n with
  | zero => rfl
  | succ k ih => simpa [List.replicate_succ] using ih

/-! Run-shape lemmas: the exact result of each operator run, by cases on
the element count. -/

theorem runCopyOp_zero (dk dstk srck : DomainKind) (m : Machine) (a : Tensor)
    (h : a.dims.prod = 0) :
    runCopyOp dk dstk srck m a = .ok (m, ⟨a.dims, a.meta, none⟩) := by
  simp [runCopyOp, materializeOutput, copyItems, Tensor.size, h]

theorem copyOnDeviceLikeRun_zero (m : Machine) (a b : Tensor) (bp : Nat)
    (d : DeviceIndex) (hb : b.dataPtr = some bp)
    (hres : getGPUIDForPointer m bp = .ok d) (h : a.dims.prod = 0) :
    copyOnDeviceLikeRun m a b = .ok (m, ⟨a.dims, a.meta, none⟩) := by
  simp [copyOnDeviceLikeRun, hb, hres, materializeOutput, copyItems,
    Tensor.size, h]

theorem runCopyOp_pos (dk dstk srck : DomainKind) (m : Machine) (a : Tensor)
    (h : a.dims.prod ≠ 0) (hbc : a.meta.byteCopyable = true)
    (hp : ∀ p, a.dataPtr = some p → p < m.nextPtr) :
    runCopyOp dk dstk srck m a = .ok
      (((m.allocate (dstk.toDomain m) (a.dims.prod * a.meta.itemsize)).1).write
         m.nextPtr (a.content m),
       ⟨a.dims, a.meta, some m.nextPtr⟩) := by
  have hrb := Machine.readBytes_allocate m (dstk.toDomain m)
    (a.dims.prod * a.meta.itemsize) a.dataPtr hp
  have hrs := Machine.readBytes_allocate_self m (dstk.toDomain m)
    (a.dims.prod * a.meta.itemsize)
  simp [runCopyOp, materializeOutput, copyItems, Tensor.size, h, hbc,
    hrb, hrs, Tensor.content, Machine.allocate_snd, drop_replicate_self]

theorem copyOnDeviceLikeRun_pos (m : Machine) (a b : Tensor) (bp : Nat)
    (d : DeviceIndex) (hb : b.dataPtr = some bp)
    (hres : getGPUIDForPointer m bp = .ok d) (h : a.dims.prod ≠ 0)
    (hbc : a.meta.byteCopyable = true)
    (hp : ∀ p, a.dataPtr = some p → p < m.nextPtr) :
    copyOnDeviceLikeRun m a b = .ok
      (((m.allocate (Domain.device d) (a.dims.prod * a.meta.itemsize)).1).write
         m.nextPtr (a.content m),
       ⟨a.dims, a.meta, some m.nextPtr⟩) := by
  have hrb := Machine.readBytes_allocate m (Domain.device d)
    (a.dims.prod * a.meta.itemsize) a.dataPtr hp
  have hrs := Machine.readBytes_allocate_self m (Domain.device d)
    (a.dims.prod * a.meta.itemsize)
  simp [copyOnDeviceLikeRun, hb, hres, materializeOutput, copyItems,
    Tensor.size, h, hbc, hrb, hrs, Tensor.content, Machine.allocate_snd,
    drop_replicate_self]

theorem copyOnDeviceLikeRun_pos_elementCopy (m : Machine) (a b : Tensor)
    (bp : Nat) (d : DeviceIndex) (hb : b.dataPtr = some bp)
    (hres : getGPUIDForPointer m bp = .ok d) (h : a.dims.prod ≠ 0)
    (hbc : a.meta.byteCopyable = false) :
    copyOnDeviceLikeRun m a b = .error .UnsupportedCrossDomainCopy := by
  simp [copyOnDeviceLikeRun, hb, hres, materializeOutput, copyItems,
    Tensor.size, h, hbc]

theorem content_take (m : Machine) (a : Tensor) :
    (a.content m).take (a.size * a.meta.itemsize) = a.content m := by
  simp [Tensor.content, List.take_take]

theorem content_of_lookup (m : Machine) (t : Tensor) (p : Nat) (al : Alloc)
    (hp : t.dataPtr = some p) (hl : m.lookup p = some al) :
    t.content m = al.bytes.take (t.size * t.meta.itemsize) := by
  simp [Tensor.content, Machine.readBytes, hp, hl]

/-- Every `runCopyOp` on a byte-copyable tensor succeeds and preserves the
tensor's shape, meta and logical contents, whatever the three context
kinds. -/
theorem runCopyOp_content (dk dstk srck : DomainKind) (m : Machine)
    (a : Tensor) (hbc : a.meta.byteCopyable = true)
    (hp : ∀ p, a.dataPtr = some p → p < m.nextPtr) :
    ∃ m' u, runCopyOp dk dstk srck m a = .ok (m', u) ∧
      u.dims = a.dims ∧ u.meta = a.meta ∧
      u.content m' = a.content m ∧
      (∀ p, u.dataPtr = some p → p < m'.nextPtr) := by
  by_cases h : a.dims.prod = 0
  · refine ⟨m, ⟨a.dims, a.meta, none⟩, runCopyOp_zero dk dstk srck m a h,
      rfl, rfl, ?_, ?_⟩
    · simp [Tensor.content, Machine.readBytes, Tensor.size, h]
    · intro p hp'
      cases hp'
  · refine ⟨_, _, runCopyOp_pos dk dstk srck m a h hbc hp, rfl, rfl, ?_, ?_⟩
    · have hw : (((m.allocate (dstk.toDomain m)
          (a.dims.prod * a.meta.itemsize)).1).write m.nextPtr
            (a.content m)).lookup m.nextPtr
          = some ⟨dstk.toDomain m, a.content m⟩ := by
        rw [Machine.lookup_write_self, Machine.lookup_allocate_self]
        rfl
      rw [content_of_lookup _ _ m.nextPtr _ rfl hw]
      exact content_take m a
    · intro p hp'
      injection hp' with hp'
      subst hp'
      exact Nat.lt_succ_self _

/-! Concrete machines and tensors used by witnesses and counterexamples. -/

/-- A machine with no allocations. -/
def emptyMachine : Machine := ⟨0, [], 0⟩

/-- A machine holding one empty allocation on device 3 at pointer 0. -/
def mDev3 : Machine := ⟨1, [(0, ⟨Domain.device 3, []⟩)], 0⟩

/-- A machine holding one two-byte host allocation at pointer 0. -/
def mHost2 : Machine := ⟨1, [(0, ⟨Domain.host, [10, 20]⟩)], 0⟩

/-- A machine with a four-byte buffer on device 1 at pointer 0 and a
two-byte buffer on device 0 at pointer 1. -/
def mTwoDev : Machine := ⟨2,
  [(0, ⟨Domain.device 1, [7, 8, 9, 10]⟩), (1, ⟨Domain.device 0, [1, 2]⟩)], 0⟩

/-- A zero-element tensor of shape [0, 3]. -/
def tZero : Tensor := ⟨[0, 3], ⟨4, true⟩, none⟩

/-- A tensor whose buffer pointer 5 was never allocated. -/
def tBadPtr : Tensor := ⟨[1], ⟨4, true⟩, some 5⟩

/-! The claims. -/

/-- Claim C1: every invocation of `CopyOnDeviceLike` whose Input B buffer
resolves through the registry to device `d` produces an output whose
backing allocation resolves through the registry to that same `d`,
whatever device was the caller's current device at invocation time. -/
theorem c1_output_resolves_to_b_device (m : Machine) (a b : Tensor)
    (bp : Nat) (d cur : DeviceIndex)
    (hb : b.dataPtr = some bp)
    (hres : getGPUIDForPointer m bp = .ok d)
    (hsz : a.dims.prod ≠ 0)
    (hbc : a.meta.byteCopyable = true)
    (hp : ∀ p, a.dataPtr = some p → p < m.nextPtr) :
    ∃ m2 out p,
      copyOnDeviceLikeRun { m with currentDevice := cur } a b =
        .ok (m2, out) ∧
      out.dataPtr = some p ∧
      getGPUIDForPointer m2 p = .ok d := by
  have hres' : getGPUIDForPointer { m with currentDevice := cur } bp =
      .ok d := hres
  have hp' : ∀ p, a.dataPtr = some p →
      p < ({ m with currentDevice := cur } : Machine).nextPtr := hp
  refine ⟨_, _, ({ m with currentDevice := cur } : Machine).nextPtr,
    copyOnDeviceLikeRun_pos { m with currentDevice := cur } a b bp d hb
      hres' hsz hbc hp', rfl, ?_⟩
  have hw : ((({ m with currentDevice := cur } : Machine).allocate
      (Domain.device d) (a.dims.prod * a.meta.itemsize)).1.write
        ({ m with currentDevice := cur } : Machine).nextPtr
        (a.content { m with currentDevice := cur })).lookup
          ({ m with currentDevice := cur } : Machine).nextPtr
      = some ⟨Domain.device d, a.content { m with currentDevice := cur }⟩ := by
    rw [Machine.lookup_write_self, Machine.lookup_allocate_self]
    rfl
  simp [getGPUIDForPointer, hw]

/-- Witness for C1 at a concrete machine: Input A lives on device 1, Input
B on device 0, the caller's current device is 5; the output's allocation
resolves to device 0. -/
theorem c1_witness :
    ∃ m2 out p,
      copyOnDeviceLikeRun { mTwoDev with currentDevice := 5 }
          ⟨[2], ⟨1, true⟩, some 0⟩ ⟨[1], ⟨1, true⟩, some 1⟩ =
        .ok (m2, out) ∧
      out.dataPtr = some p ∧
      getGPUIDForPointer m2 p = .ok 0 :=
  c1_output_resolves_to_b_device mTwoDev ⟨[2], ⟨1, true⟩, some 0⟩
    ⟨[1], ⟨1, true⟩, some 1⟩ 1 0 5 rfl rfl (by decide) rfl
    (by intro p hq; injection hq with hq; subst hq; decide)

/-- Claim C2: `CopyOnDeviceLikeOp::RunOnDevice` is exactly the sequence:
resolve Input B's pointer through the registry to a device index, bind a
context to that device, resize the output to Input A's shape, then that
context's `CopyItems` with Input A's meta, element count and buffer into
the output's newly sized mutable buffer typed by Input A's meta. -/
theorem c2_run_equals_steps (m : Machine) (a b : Tensor) :
    copyOnDeviceLikeRun m a b = copyOnDeviceLikeSteps m a b := by
  cases hbp : b.dataPtr with
  | none =>
      simp only [copyOnDeviceLikeRun, copyOnDeviceLikeSteps, stepResolve,
        hbp]
  | some bp =>
      cases hg : getGPUIDForPointer m bp with
      | error e =>
          simp only [copyOnDeviceLikeRun, copyOnDeviceLikeSteps,
            stepResolve, hbp, hg]
      | ok gpu =>
          simp only [copyOnDeviceLikeRun, copyOnDeviceLikeSteps,
            stepResolve, stepBindContext, stepResize, stepCopy, hbp, hg]
          cases copyItems
              (materializeOutput m (Domain.device gpu) a.dims a.meta).1
              DomainKind.cuda DomainKind.cuda a.meta a.size a.dataPtr
              (materializeOutput m (Domain.device gpu) a.dims a.meta).2.dataPtr
            with
          | ok m2 => rfl
          | error e => rfl

/-- Claim C3: the run entry point returns `true` exactly when the run
succeeded; every failure surfaces as a `false` return, for both
`CopyOnDeviceLikeOp` and any `CopyOp` instantiation. -/
theorem c3_run_bool_iff_success (m : Machine) (a b : Tensor)
    (dk dstk srck : DomainKind) :
    (copyOnDeviceLikeRunBool m a b = true ↔
      ∃ r, copyOnDeviceLikeRun m a b = Except.ok r) ∧
    (copyOpRunBool dk dstk srck m a = true ↔
      ∃ r, runCopyOp dk dstk srck m a = Except.ok r) := by
  constructor
  · unfold copyOnDeviceLikeRunBool
    cases h : copyOnDeviceLikeRun m a b <;> simp [h]
  · unfold copyOpRunBool
    cases h : runCopyOp dk dstk srck m a <;> simp [h]

/-- Claim C4: the CUDA registration table binds "Copy",
"CopyFromCPUInput", "EnsureCPUOutput", "CopyGPUToCPU", "CopyCPUToGPU" and
"CopyOnDeviceLike", each to the corresponding copy operator; "Copy" is the
all-CUDA (device-to-device) `CopyOp` instantiation. -/
theorem c4_registration_table :
    cudaLookup ("Copy") =
      some (OpImpl.copyOp DomainKind.cuda DomainKind.cuda DomainKind.cuda) ∧
    cudaLookup ("CopyFromCPUInput") =
      some (OpImpl.copyOp DomainKind.cuda DomainKind.cuda DomainKind.host) ∧
    cudaLookup ("EnsureCPUOutput") =
      some (OpImpl.copyOp DomainKind.cuda DomainKind.host DomainKind.cuda) ∧
    cudaLookup ("CopyGPUToCPU") =
      some (OpImpl.copyOp DomainKind.cuda DomainKind.host DomainKind.cuda) ∧
    cudaLookup ("CopyCPUToGPU") =
      some (OpImpl.copyOp DomainKind.cuda DomainKind.cuda DomainKind.host) ∧
    cudaLookup ("CopyOnDeviceLike") =
      some (OpImpl.copyOnDeviceLikeOp DomainKind.cuda DomainKind.cuda
        DomainKind.cuda) :=
  ⟨rfl, rfl, rfl, rfl, rfl, rfl⟩

/-- Claim C5: every registered cross-domain copy variant touching the
device domain is a `CopyOp` instantiation whose first (dispatch) type
parameter is the CUDA context, whichever end is host. -/
theorem c5_cross_domain_dispatch_is_cuda :
    (∃ dst src, cudaLookup ("CopyGPUToCPU") =
      some (OpImpl.copyOp DomainKind.cuda dst src)) ∧
    (∃ dst src, cudaLookup ("CopyCPUToGPU") =
      some (OpImpl.copyOp DomainKind.cuda dst src)) ∧
    (∃ dst src, cudaLookup ("EnsureCPUOutput") =
      some (OpImpl.copyOp DomainKind.cuda dst src)) ∧
    (∃ dst src, cudaLookup ("CopyFromCPUInput") =
      some (OpImpl.copyOp DomainKind.cuda dst src)) :=
  ⟨⟨DomainKind.host, DomainKind.cuda, rfl⟩,
   ⟨DomainKind.cuda, DomainKind.host, rfl⟩,
   ⟨DomainKind.host, DomainKind.cuda, rfl⟩,
   ⟨DomainKind.cuda, DomainKind.host, rfl⟩⟩

/-- Claim C6: for every byte-copyable tensor of any shape, the registered
"CopyCPUToGPU" then "CopyGPUToCPU" round trip reproduces the tensor's
shape, meta and bytes exactly, and symmetrically for the reverse pair. -/
theorem c6_round_trip_identity (m : Machine) (t : Tensor)
    (hbc : t.meta.byteCopyable = true)
    (hp : ∀ p, t.dataPtr = some p → p < m.nextPtr) :
    (∃ m1 u m2 v,
      runCopyOp DomainKind.cuda DomainKind.cuda DomainKind.host m t =
        .ok (m1, u) ∧
      runCopyOp DomainKind.cuda DomainKind.host DomainKind.cuda m1 u =
        .ok (m2, v) ∧
      v.dims = t.dims ∧ v.meta = t.meta ∧ v.content m2 = t.content m) ∧
    (∃ m1 u m2 v,
      runCopyOp DomainKind.cuda DomainKind.host DomainKind.cuda m t =
        .ok (m1, u) ∧
      runCopyOp DomainKind.cuda DomainKind.cuda DomainKind.host m1 u =
        .ok (m2, v) ∧
      v.dims = t.dims ∧ v.meta = t.meta ∧ v.content m2 = t.content m) := by
  constructor
  · obtain ⟨m1, u, h1, hd1, hm1, hc1, hq1⟩ :=
      runCopyOp_content DomainKind.cuda DomainKind.cuda DomainKind.host m t
        hbc hp
    obtain ⟨m2, v, h2, hd2, hm2, hc2, hq2⟩ :=
      runCopyOp_content DomainKind.cuda DomainKind.host DomainKind.cuda m1 u
        (by rw [hm1]; exact hbc) hq1
    exact ⟨m1, u, m2, v, h1, h2, hd2.trans hd1, hm2.trans hm1,
      hc2.trans hc1⟩
  · obtain ⟨m1, u, h1, hd1, hm1, hc1, hq1⟩ :=
      runCopyOp_content DomainKind.cuda DomainKind.host DomainKind.cuda m t
        hbc hp
    obtain ⟨m2, v, h2, hd2, hm2, hc2, hq2⟩ :=
      runCopyOp_content DomainKind.cuda DomainKind.cuda DomainKind.host m1 u
        (by rw [hm1]; exact hbc) hq1
    exact ⟨m1, u, m2, v, h1, h2, hd2.trans hd1, hm2.trans hm1,
      hc2.trans hc1⟩

/-- Witness for C6 at a concrete host tensor of two bytes. -/
theorem c6_witness :
    (∃ m1 u m2 v,
      runCopyOp DomainKind.cuda DomainKind.cuda DomainKind.host mHost2
          ⟨[2], ⟨1, true⟩, some 0⟩ = .ok (m1, u) ∧
      runCopyOp DomainKind.cuda DomainKind.host DomainKind.cuda m1 u =
        .ok (m2, v) ∧
      v.dims = [2] ∧ v.meta = ⟨1, true⟩ ∧
      v.content m2 = Tensor.content mHost2 ⟨[2], ⟨1, true⟩, some 0⟩) ∧
    (∃ m1 u m2 v,
      runCopyOp DomainKind.cuda DomainKind.host DomainKind.cuda mHost2
          ⟨[2], ⟨1, true⟩, some 0⟩ = .ok (m1, u) ∧
      runCopyOp DomainKind.cuda DomainKind.cuda DomainKind.host m1 u =
        .ok (m2, v) ∧
      v.dims = [2] ∧ v.meta = ⟨1, true⟩ ∧
      v.content m2 = Tensor.content mHost2 ⟨[2], ⟨1, true⟩, some 0⟩) :=
  c6_round_trip_identity mHost2 ⟨[2], ⟨1, true⟩, some 0⟩ rfl
    (by intro p hq; injection hq with hq; subst hq; decide)

/-- Counterexample for C7 as stated: Input A has element count 0, yet the
registered copy operation `CopyOnDeviceLike` fails when Input B's buffer
pointer was never device-allocated — not every registered copy operation
succeeds on a zero-element input. -/
theorem c7_counterexample :
    tZero.size = 0 ∧
    copyOnDeviceLikeRun emptyMachine tZero tBadPtr =
      .error .UnknownDevicePointer ∧
    copyOnDeviceLikeRunBool emptyMachine tZero tBadPtr = false :=
  ⟨rfl, rfl, rfl⟩

/-- Claim C7 (amended): for an input with element count 0, every
registered `CopyOp` variant succeeds, yields an output with element count
0, and leaves the machine untouched (no buffer read, write or
allocation); `CopyOnDeviceLike` does the same provided its Input B buffer
resolves through the registry — an unresolvable Input B fails regardless
of Input A's element count. -/
theorem c7_zero_count_succeeds (m : Machine) (a : Tensor)
    (h : a.size = 0) :
    (∀ dk dstk srck, runCopyOp dk dstk srck m a =
      .ok (m, ⟨a.dims, a.meta, none⟩)) ∧
    (Tensor.size ⟨a.dims, a.meta, none⟩ = 0) ∧
    (∀ b bp d, b.dataPtr = some bp → getGPUIDForPointer m bp = .ok d →
      copyOnDeviceLikeRun m a b = .ok (m, ⟨a.dims, a.meta, none⟩)) := by
  refine ⟨fun dk dstk srck => runCopyOp_zero dk dstk srck m a h, h,
    fun b bp d hb hres => copyOnDeviceLikeRun_zero m a b bp d hb hres h⟩

/-- Witness for C7 (amended) at a concrete zero-element tensor. -/
theorem c7_witness :
    runCopyOp DomainKind.cuda DomainKind.cuda DomainKind.host mDev3 tZero =
      .ok (mDev3, ⟨[0, 3], ⟨4, true⟩, none⟩) ∧
    copyOnDeviceLikeRun mDev3 tZero ⟨[2], ⟨4, true⟩, some 0⟩ =
      .ok (mDev3, ⟨[0, 3], ⟨4, true⟩, none⟩) :=
  ⟨(c7_zero_count_succeeds mDev3 tZero rfl).1 DomainKind.cuda
     DomainKind.cuda DomainKind.host,
   (c7_zero_count_succeeds mDev3 tZero rfl).2.2 ⟨[2], ⟨4, true⟩, some 0⟩
     0 3 rfl rfl⟩

/-- Claim C8: resolving a pointer never registered by a device allocation
fails with `UnknownDevicePointer`, never yields any device index, and
makes a `CopyOnDeviceLike` invocation whose Input B holds such a pointer
fail rather than pick a device. -/
theorem c8_unknown_pointer_fatal (m : Machine) (p : Nat)
    (h : ∀ i bs, m.lookup p ≠ some ⟨Domain.device i, bs⟩) :
    getGPUIDForPointer m p = .error .UnknownDevicePointer ∧
    (∀ d, getGPUIDForPointer m p ≠ .ok d) ∧
    (∀ a b, b.dataPtr = some p →
      copyOnDeviceLikeRun m a b = .error .UnknownDevicePointer) := by
  have hg : getGPUIDForPointer m p = .error .UnknownDevicePointer := by
    unfold getGPUIDForPointer
    cases hl : m.lookup p with
    | none => rfl
    | some al =>
        obtain ⟨dom, bs⟩ := al
        cases dom with
        | host => rfl
        | device i => exact absurd hl (h i bs)
  refine ⟨hg, fun d hd => ?_, fun a b hbp => ?_⟩
  · rw [hg] at hd
    cases hd
  · simp [copyOnDeviceLikeRun, hbp, hg]

/-- Witness for C8: pointer 7 on the empty machine. -/
theorem c8_witness :
    getGPUIDForPointer emptyMachine 7 =
      .error CopyError.UnknownDevicePointer :=
  (c8_unknown_pointer_fatal emptyMachine 7
    (by intro i bs hc; exact Option.noConfusion hc)).1

/-- Claim C9: "EnsureCPUOutput" and "CopyGPUToCPU" are registered to the
same `CopyOp` instantiation (CUDA dispatch, host destination, CUDA
source), "CopyFromCPUInput" and "CopyCPUToGPU" to the same instantiation
(CUDA dispatch, CUDA destination, host source), and each pair runs
identically on every input. -/
theorem c9_alias_pairs :
    cudaLookup ("EnsureCPUOutput") = cudaLookup ("CopyGPUToCPU") ∧
    cudaLookup ("EnsureCPUOutput") =
      some (OpImpl.copyOp DomainKind.cuda DomainKind.host DomainKind.cuda) ∧
    cudaLookup ("CopyFromCPUInput") = cudaLookup ("CopyCPUToGPU") ∧
    cudaLookup ("CopyFromCPUInput") =
      some (OpImpl.copyOp DomainKind.cuda DomainKind.cuda DomainKind.host) ∧
    (∀ m a b, runRegistered ("EnsureCPUOutput") m a b =
      runRegistered ("CopyGPUToCPU") m a b) ∧
    (∀ m a b, runRegistered ("CopyFromCPUInput") m a b =
      runRegistered ("CopyCPUToGPU") m a b) :=
  ⟨rfl, rfl, rfl, rfl, fun _ _ _ => rfl, fun _ _ _ => rfl⟩

theorem observe_zero (m : Machine) (a b : Tensor) (bp : Nat)
    (d : DeviceIndex) (hb : b.dataPtr = some bp)
    (hres : getGPUIDForPointer m bp = .ok d) (h : a.dims.prod = 0) :
    observe (copyOnDeviceLikeRun m a b) =
      .ok (a.dims, a.meta, [], none) := by
  rw [copyOnDeviceLikeRun_zero m a b bp d hb hres h]
  simp [observe, Tensor.content, Machine.readBytes]

theorem observe_pos (m : Machine) (a b : Tensor) (bp : Nat)
    (d : DeviceIndex) (hb : b.dataPtr = some bp)
    (hres : getGPUIDForPointer m bp = .ok d) (h : a.dims.prod ≠ 0)
    (hbc : a.meta.byteCopyable = true)
    (hp : ∀ p, a.dataPtr = some p → p < m.nextPtr) :
    observe (copyOnDeviceLikeRun m a b) =
      .ok (a.dims, a.meta, a.content m, some (Domain.device d)) := by
  rw [copyOnDeviceLikeRun_pos m a b bp d hb hres h hbc hp]
  have hw : (((m.allocate (Domain.device d)
      (a.dims.prod * a.meta.itemsize)).1).write m.nextPtr
        (a.content m)).lookup m.nextPtr
      = some ⟨Domain.device d, a.content m⟩ := by
    rw [Machine.lookup_write_self, Machine.lookup_allocate_self]
    rfl
  have hcnt : Tensor.content
      (((m.allocate (Domain.device d)
        (a.dims.prod * a.meta.itemsize)).1).write m.nextPtr (a.content m))
      ⟨a.dims, a.meta, some m.nextPtr⟩ = a.content m := by
    rw [content_of_lookup _ _ m.nextPtr _ rfl hw]
    exact content_take m a
  simp [observe, Option.bind, hw, hcnt]

/-- Claim C10: the observable output of `CopyOnDeviceLike` depends only on
Input A's value and on the device index Input B's buffer resolves to —
never on Input B's element values or shape: two invocations with
value-identical Input A whose Input B buffers resolve to the same device
index observe identical results. -/
theorem c10_output_independent_of_b_data (m1 m2 : Machine)
    (a1 a2 b1 b2 : Tensor) (bp1 bp2 : Nat) (d : DeviceIndex)
    (hd : a1.dims = a2.dims) (hm : a1.meta = a2.meta)
    (hc : a1.content m1 = a2.content m2)
    (hp1 : ∀ p, a1.dataPtr = some p → p < m1.nextPtr)
    (hp2 : ∀ p, a2.dataPtr = some p → p < m2.nextPtr)
    (hb1 : b1.dataPtr = some bp1) (hb2 : b2.dataPtr = some bp2)
    (hr1 : getGPUIDForPointer m1 bp1 = .ok d)
    (hr2 : getGPUIDForPointer m2 bp2 = .ok d) :
    observe (copyOnDeviceLikeRun m1 a1 b1) =
      observe (copyOnDeviceLikeRun m2 a2 b2) := by
  by_cases h : a1.dims.prod = 0
  · have h2 : a2.dims.prod = 0 := by rw [← hd]; exact h
    rw [observe_zero m1 a1 b1 bp1 d hb1 hr1 h,
      observe_zero m2 a2 b2 bp2 d hb2 hr2 h2, hd, hm]
  · have h2 : a2.dims.prod ≠ 0 := by rw [← hd]; exact h
    by_cases hbc : a1.meta.byteCopyable = true
    · have hbc2 : a2.meta.byteCopyable = true := by rw [← hm]; exact hbc
      rw [observe_pos m1 a1 b1 bp1 d hb1 hr1 h hbc hp1,
        observe_pos m2 a2 b2 bp2 d hb2 hr2 h2 hbc2 hp2, hd, hm, hc]
    · have hbc' : a1.meta.byteCopyable = false :=
        Bool.eq_false_iff.mpr hbc
      have hbc2 : a2.meta.byteCopyable = false := by rw [← hm]; exact hbc'
      rw [copyOnDeviceLikeRun_pos_elementCopy m1 a1 b1 bp1 d hb1 hr1 h hbc',
        copyOnDeviceLikeRun_pos_elementCopy m2 a2 b2 bp2 d hb2 hr2 h2 hbc2]

/-- Witness for C10: two machines with different B shapes and contents,
different current devices and different heaps, whose B buffers both
resolve to device 2 and whose A contents agree. -/
theorem c10_witness :
    observe (copyOnDeviceLikeRun
      ⟨2, [(0, ⟨Domain.device 1, [5, 6]⟩), (1, ⟨Domain.device 2, [9]⟩)], 0⟩
      ⟨[2], ⟨1, true⟩, some 0⟩ ⟨[1], ⟨1, true⟩, some 1⟩) =
    observe (copyOnDeviceLikeRun
      ⟨3, [(0, ⟨Domain.host, [5, 6, 99]⟩),
           (1, ⟨Domain.device 2, [1, 2, 3]⟩)], 7⟩
      ⟨[2], ⟨1, true⟩, some 0⟩ ⟨[4], ⟨1, true⟩, some 1⟩) :=
  c10_output_independent_of_b_data _ _ _ _ _ _ 1 1 2 rfl rfl rfl
    (by intro p hq; injection hq with hq; subst hq; decide)
    (by intro p hq; injection hq with hq; subst hq; decide)
    rfl rfl rfl rfl

end Caffe2
